import Mathlib

/-!
# Verification of the gossip dissemination core (`router/gossip.go`)

Shallow embedding of the gossip core of the mesh router: the coalescing
`GossipSender`, the per-channel send/receive flows of `GossipChannel`, the
dispatcher `Router.handleGossip`, and channel registration `Router.NewGossip`.

Modelling conventions:
* `PeerName` and `Connection` are opaque identifiers, modelled as `Nat`.
* A gob-encoded frame is modelled as a `List GobValue` of self-describing
  fields; a `gob.Decoder` positioned somewhere in the stream is the suffix
  list of not-yet-consumed fields.  Verbatim forwarding is equality of
  these lists.
* `GossipData` (a user-supplied mergeable value) is modelled as the free
  merge algebra over atoms, so that the contents of a mailbox can be read
  off as the exact sequence of `Merge` calls the code performed.
* The capacity-1 Go channel `GossipSender.cell` is a `List GossipData`
  whose length the code keeps at most 1.
* Side effects (`SendProtocolMsg`, log-and-drop, `GossipSender.Stop`, and
  calls into the user `Gossiper`) are collected in an explicit trace of
  `Effect`s returned alongside results; Go's `error` results are
  `Option GossipError` (`none` = `nil`).
* The overlay collaborators consumed by the core (`Connections()`,
  `Routes.Unicast`, `ConnectionTo`, `Peers.Fetch`, `NextBroadcastHops`)
  are an `Overlay` record of abstract functions.
-/

namespace Weave

/-- Stable opaque identifier of a peer (`PeerName`). -/
abbrev PeerName := Nat

/-- Stable identity of a live connection, used as a map key. -/
abbrev Connection := Nat

/-- Protocol tags seen by the gossip core; `other` stands for any tag of the
overlay that is not one of the three gossip tags. -/
inductive ProtocolTag where
  | protocolGossipUnicast
  | protocolGossipBroadcast
  | protocolGossip
  | other (n : Nat)
deriving DecidableEq, Repr

/-- User state: the free merge algebra.  `Merge` is in-place in Go; here the
merged value is returned, recording exactly which merges happened. -/
inductive GossipData where
  | atom (n : Nat)
  | merged (pending other : GossipData)
deriving DecidableEq, Repr

/-- Go `pending.Merge(data)` combines `data` into `pending`. -/
def GossipData.Merge (pending other : GossipData) : GossipData :=
  .merged pending other

/-- Go `GossipData.Encode()`: a user-supplied self-describing serialisation. -/
def GossipData.Encode : GossipData → List Nat
  | .atom n => [n]
  | .merged a b => a.Encode ++ b.Encode

/-- One self-describing field of a gob stream. -/
inductive GobValue where
  | vUInt32 (n : Nat)
  | vName (p : PeerName)
  | vBytes (b : List Nat)
deriving DecidableEq, Repr

/-- Errors surfaced by the core: gob decode failures, the unknown-channel
error of the dispatcher, and errors returned by the user `Gossiper`. -/
inductive GossipError where
  | decodeFailed
  | unknownChannel (h : Nat)
  | appError (n : Nat)
deriving DecidableEq, Repr

/-- Go `decoder.Decode(&channelHash)`: consume a `uint32` field. -/
def decodeUInt32 : List GobValue → Except GossipError (Nat × List GobValue)
  | .vUInt32 n :: rest => .ok (n, rest)
  | _ => .error .decodeFailed

/-- Go `decoder.Decode(&name)`: consume a `PeerName` field. -/
def decodeName : List GobValue → Except GossipError (PeerName × List GobValue)
  | .vName p :: rest => .ok (p, rest)
  | _ => .error .decodeFailed

/-- Go `decoder.Decode(&payload)`: consume a `[]byte` field. -/
def decodeBytes : List GobValue → Except GossipError (List Nat × List GobValue)
  | .vBytes b :: rest => .ok (b, rest)
  | _ => .error .decodeFailed

/-- Go `GobEncode(hash, srcName, dstName, buf)`: the four-field unicast frame. -/
def GobEncode4 (h : Nat) (src dst : PeerName) (buf : List Nat) : List GobValue :=
  [.vUInt32 h, .vName src, .vName dst, .vBytes buf]

/-- Go `GobEncode(hash, srcName, buf)`: the three-field broadcast/gossip frame. -/
def GobEncode3 (h : Nat) (src : PeerName) (buf : List Nat) : List GobValue :=
  [.vUInt32 h, .vName src, .vBytes buf]

/-- The observable actions of the core on its collaborators. -/
inductive Effect where
  | sendProtocolMsg (conn : Connection) (tag : ProtocolTag) (msg : List GobValue)
  | logDrop
  | senderStop (conn : Connection)
  | callOnGossipUnicast (src : PeerName) (payload : List Nat)
  | callOnGossipBroadcast (payload : List Nat)
  | callOnGossip (payload : List Nat)
deriving DecidableEq, Repr

/-- The user-supplied per-channel `Gossiper` callbacks. -/
structure Gossiper where
  onGossipUnicast : PeerName → List Nat → Option GossipError
  onGossipBroadcast : List Nat → Option GossipError
  gossip : GossipData
  onGossip : List Nat → Except GossipError (Option GossipData)

/-- The overlay collaborators consumed by the core (all out of scope for the
repository itself): `LocalPeer.Connections()`, `Routes.Unicast`,
`LocalPeer.ConnectionTo`, `Peers.Fetch` and `LocalPeer.NextBroadcastHops`.
A `Peer` is identified by its `PeerName`. -/
structure Overlay where
  connections : List Connection
  unicast : PeerName → Option PeerName
  connectionTo : PeerName → Option Connection
  fetch : PeerName → Option PeerName
  nextBroadcastHops : PeerName → List Connection

/-!
## GossipSender

`sender.cell` is a Go channel of capacity 1; the code keeps at most one
pending value in it, so it is modelled as a `List GossipData` (the channel
buffer, front = next to be received).
-/

/-- Go `GossipSender.Send(data)`: the non-blocking select.  If the cell holds
`pending`, receive it, `pending.Merge(data)`, and put the result back;
otherwise (default branch) put `data`.  Totality of this function is the
never-blocks property of the Go `select` with a `default` case. -/
def GossipSender.Send (cell : List GossipData) (data : GossipData) :
    List GossipData :=
  match cell with
  | pending :: rest => rest ++ [pending.Merge data]
  | [] => [data]

/-!
## GossipChannel
-/

/-- Association-list operations standing in for Go maps (lookup, delete,
insert-or-replace).  `ainsert` keeps keys unique. -/
def alookup {α : Type} : List (Nat × α) → Nat → Option α
  | [], _ => none
  | (k', v) :: rest, k => if k' = k then some v else alookup rest k

/-- Go `delete(m, k)`. -/
def aerase {α : Type} : List (Nat × α) → Nat → List (Nat × α)
  | [], _ => []
  | (k', v) :: rest, k =>
    if k' = k then aerase rest k else (k', v) :: aerase rest k

/-- Go `m[k] = v`. -/
def ainsert {α : Type} (m : List (Nat × α)) (k : Nat) (v : α) :
    List (Nat × α) :=
  (k, v) :: aerase m k

/-- The per-channel state: `(ourself.Name, name, hash, gossiper, senders)`.
Each sender is represented by its mailbox contents. -/
structure GossipChannel where
  ourName : PeerName
  name : String
  hash : Nat
  gossiper : Gossiper
  senders : List (Connection × List GossipData)

/-- The send function captured by the sender created in `sendGossipDown`:
it encodes `(c.hash, c.ourself.Name, pending.Encode())` with tag
`ProtocolGossip` and hands it to `conn.SendProtocolMsg`. -/
def GossipChannel.senderSendFn (c : GossipChannel) (conn : Connection)
    (pending : GossipData) : Effect :=
  .sendProtocolMsg conn .protocolGossip
    (GobEncode3 c.hash c.ourName pending.Encode)

/-- Go `relayGossipUnicast(dstPeerName, msg)`: consult `Routes.Unicast`; if no
route, log and drop; else look up the connection to the relay peer; if
none, log and drop; else transmit `msg` with tag `ProtocolGossipUnicast`.
Returns `nil` on every path. -/
def GossipChannel.relayGossipUnicast (ov : Overlay) (_c : GossipChannel)
    (dstPeerName : PeerName) (msg : List GobValue) :
    Option GossipError × List Effect :=
  match ov.unicast dstPeerName with
  | none => (none, [.logDrop])
  | some relayPeerName =>
    match ov.connectionTo relayPeerName with
    | none => (none, [.logDrop])
    | some conn => (none, [.sendProtocolMsg conn .protocolGossipUnicast msg])

/-- Go `relayGossipBroadcast(srcName, msg)`: fetch the source peer; if unknown,
log and drop; else transmit `msg` with tag `ProtocolGossipBroadcast` on
every connection in `NextBroadcastHops(srcPeer)`.  Returns `nil` on every
path. -/
def GossipChannel.relayGossipBroadcast (ov : Overlay) (_c : GossipChannel)
    (srcName : PeerName) (msg : List GobValue) :
    Option GossipError × List Effect :=
  match ov.fetch srcName with
  | none => (none, [.logDrop])
  | some srcPeer =>
    (none, (ov.nextBroadcastHops srcPeer).map
      (fun conn => .sendProtocolMsg conn .protocolGossipBroadcast msg))

/-- Go `sendGossipDown(conn, data)` (private): ensure a sender exists for
`conn` (a fresh one starts with an empty cell), then `sender.Send(data)`. -/
def GossipChannel.sendGossipDown (c : GossipChannel) (conn : Connection)
    (data : GossipData) : GossipChannel :=
  match alookup c.senders conn with
  | some cell =>
    { c with senders := ainsert c.senders conn (GossipSender.Send cell data) }
  | none =>
    { c with senders := ainsert c.senders conn (GossipSender.Send [] data) }

/-- The loop body of `SendGossip`: for each `conn` of the snapshot, call
`sendGossipDown`, move `senders[conn]` into `retainedSenders`, and delete
it from `senders`.  (The map read after `sendGossipDown` always finds the
key, since `sendGossipDown` just inserted it; `getD []` is Go's
unconditional map read.) -/
def sendGossipLoop (c : GossipChannel)
    (retained : List (Connection × List GossipData)) (data : GossipData) :
    List Connection → GossipChannel × List (Connection × List GossipData)
  | [] => (c, retained)
  | conn :: rest =>
    let c1 := c.sendGossipDown conn data
    let retained1 := ainsert retained conn ((alookup c1.senders conn).getD [])
    let c2 : GossipChannel := { c1 with senders := aerase c1.senders conn }
    sendGossipLoop c2 retained1 data rest

/-- Go `SendGossip(data)`: snapshot `Connections()` outside the lock, run the
retain loop, `Stop()` every sender left over (its connection is gone), and
replace `senders` with the retained map. -/
def GossipChannel.SendGossip (ov : Overlay) (c : GossipChannel)
    (data : GossipData) : GossipChannel × List Effect :=
  let connections := ov.connections
  let step := sendGossipLoop c [] data connections
  ({ step.1 with senders := step.2 },
    step.1.senders.map (fun p => Effect.senderStop p.1))

/-- Go `SendGossipDown(conn, data)`: lock, `sendGossipDown`, unlock. -/
def GossipChannel.SendGossipDown (c : GossipChannel) (conn : Connection)
    (data : GossipData) : GossipChannel :=
  c.sendGossipDown conn data

/-- Go `deliverGossipUnicast`: decode `destName`; if we are not the
destination, relay the original payload verbatim; otherwise decode the
inner payload and hand it to `gossiper.OnGossipUnicast`. -/
def GossipChannel.deliverGossipUnicast (ov : Overlay) (c : GossipChannel)
    (srcName : PeerName) (origPayload : List GobValue)
    (dec : List GobValue) : Option GossipError × List Effect :=
  match decodeName dec with
  | .error e => (some e, [])
  | .ok (destName, rest) =>
    if c.ourName ≠ destName then
      c.relayGossipUnicast ov destName origPayload
    else
      match decodeBytes rest with
      | .error e => (some e, [])
      | .ok (payload, _) =>
        (c.gossiper.onGossipUnicast srcName payload,
          [.callOnGossipUnicast srcName payload])

/-- Go `deliverGossipBroadcast`: decode the inner payload, hand it to
`gossiper.OnGossipBroadcast`; on error return it (no relaying); otherwise
relay the original payload verbatim. -/
def GossipChannel.deliverGossipBroadcast (ov : Overlay) (c : GossipChannel)
    (srcName : PeerName) (origPayload : List GobValue)
    (dec : List GobValue) : Option GossipError × List Effect :=
  match decodeBytes dec with
  | .error e => (some e, [])
  | .ok (payload, _) =>
    match c.gossiper.onGossipBroadcast payload with
    | some e => (some e, [.callOnGossipBroadcast payload])
    | none =>
      let relay := c.relayGossipBroadcast ov srcName origPayload
      (relay.1, .callOnGossipBroadcast payload :: relay.2)

/-- Go `deliverGossip`: decode the inner payload, hand it to
`gossiper.OnGossip`; on error return it; if the returned delta is non-nil,
`SendGossip` the delta. -/
def GossipChannel.deliverGossip (ov : Overlay) (c : GossipChannel)
    (_srcName : PeerName) (_origPayload : List GobValue)
    (dec : List GobValue) : Option GossipError × GossipChannel × List Effect :=
  match decodeBytes dec with
  | .error e => (some e, c, [])
  | .ok (payload, _) =>
    match c.gossiper.onGossip payload with
    | .error e => (some e, c, [.callOnGossip payload])
    | .ok none => (none, c, [.callOnGossip payload])
    | .ok (some data) =>
      let step := c.SendGossip ov data
      (none, step.1, .callOnGossip payload :: step.2)

/-- Go `GossipUnicast(dstPeerName, buf)`: encode
`(hash, ourName, dstPeerName, buf)` and relay it. -/
def GossipChannel.GossipUnicast (ov : Overlay) (c : GossipChannel)
    (dstPeerName : PeerName) (buf : List Nat) :
    Option GossipError × List Effect :=
  c.relayGossipUnicast ov dstPeerName
    (GobEncode4 c.hash c.ourName dstPeerName buf)

/-- Go `GossipBroadcast(buf)`: encode `(hash, ourName, buf)` and relay it with
ourselves as the origin. -/
def GossipChannel.GossipBroadcast (ov : Overlay) (c : GossipChannel)
    (buf : List Nat) : Option GossipError × List Effect :=
  c.relayGossipBroadcast ov c.ourName (GobEncode3 c.hash c.ourName buf)

/-!
## Router: registry and dispatcher
-/

/-- The router state visible to the gossip core: our name and
`GossipChannels : map[uint32]*GossipChannel`. -/
structure Router where
  ourName : PeerName
  channels : List (Nat × GossipChannel)

/-- The UTF-8 encoding of one character, as a list of byte values. -/
def utf8Enc (c : Char) : List Nat :=
  let n := c.toNat
  if n < 128 then [n]
  else if n < 2048 then [192 + n / 64, 128 + n % 64]
  else if n < 65536 then [224 + n / 4096, 128 + (n / 64) % 64, 128 + n % 64]
  else [240 + n / 262144, 128 + (n / 4096) % 64, 128 + (n / 64) % 64,
    128 + n % 64]

/-- Modelled from the spec: the channel-name hash function `hash` is not in
the provided source (only its call site in `NewGossip` is).  §6 specifies a
deterministic 32-bit FNV-style hash of the UTF-8 channel name, identical on
all peers; this is 32-bit FNV-1a over the UTF-8 bytes of the name. -/
def hash (channelName : String) : Nat :=
  (channelName.data.flatMap utf8Enc).foldl
    (fun h b => ((h ^^^ b) * 16777619) % 4294967296) 2166136261

/-- Go `Router.NewGossip(channelName, g)`: build the channel, register it in
`GossipChannels` under `hash(channelName)`, and return it. -/
def Router.NewGossip (router : Router) (channelName : String)
    (g : Gossiper) : Router × GossipChannel :=
  let channelHash := hash channelName
  let channel : GossipChannel :=
    { ourName := router.ourName, name := channelName, hash := channelHash
      gossiper := g, senders := [] }
  ({ router with channels := ainsert router.channels channelHash channel },
    channel)

/-- Go `Router.handleGossip(tag, payload)`: decode `channelHash`, look up the
channel (unknown hash is an error), decode `srcName`, then dispatch on the
tag; a tag that is none of the three gossip tags returns `nil`. -/
def Router.handleGossip (ov : Overlay) (router : Router) (tag : ProtocolTag)
    (payload : List GobValue) :
    Option GossipError × Router × List Effect :=
  match decodeUInt32 payload with
  | .error e => (some e, router, [])
  | .ok (channelHash, rest) =>
    match alookup router.channels channelHash with
    | none => (some (.unknownChannel channelHash), router, [])
    | some channel =>
      match decodeName rest with
      | .error e => (some e, router, [])
      | .ok (srcName, dec) =>
        match tag with
        | .protocolGossipUnicast =>
          let step := channel.deliverGossipUnicast ov srcName payload dec
          (step.1, router, step.2)
        | .protocolGossipBroadcast =>
          let step := channel.deliverGossipBroadcast ov srcName payload dec
          (step.1, router, step.2)
        | .protocolGossip =>
          let step := channel.deliverGossip ov srcName payload dec
          (step.1,
            { router with
                channels := ainsert router.channels channelHash step.2.1 },
            step.2.2)
        | .other _ => (none, router, [])

/-- A sequence of `Router.NewGossip` registrations, performed in order. -/
def registerAll (router : Router) : List (String × Gossiper) → Router
  | [] => router
  | reg :: rest => registerAll (router.NewGossip reg.1 reg.2).1 rest

/-!
## Concrete instances used to exercise the theorems
-/

/-- A trivial `Gossiper` that accepts everything and learns nothing. -/
def gossiperEx : Gossiper where
  onGossipUnicast := fun _ _ => none
  onGossipBroadcast := fun _ => none
  gossip := .atom 0
  onGossip := fun _ => .ok none

/-- A `Gossiper` that rejects and learns a delta, for the error branches. -/
def gossiperEx2 : Gossiper where
  onGossipUnicast := fun _ _ => some (.appError 1)
  onGossipBroadcast := fun _ => some (.appError 2)
  gossip := .atom 0
  onGossip := fun _ => .ok (some (.atom 9))

/-- A small overlay: connections 1 and 3; peer 7 routes via peer 4 which is
connected on connection 3; peer 8 is routable to peer 5 but no connection
to 5 exists; broadcasts from peer 6 fan out on connections 1 and 3. -/
def ovEx : Overlay where
  connections := [1, 3]
  unicast := fun d => if d = 7 then some 4 else if d = 8 then some 5 else none
  connectionTo := fun p => if p = 4 then some 3 else none
  fetch := fun p => if p = 6 then some 6 else none
  nextBroadcastHops := fun p => if p = 6 then [1, 3] else []

/-- A channel of peer 2 with senders for connections 1 and 2 pending. -/
def chEx : GossipChannel where
  ourName := 2
  name := "ex"
  hash := 77
  gossiper := gossiperEx
  senders := [(1, [.atom 4]), (2, [.atom 5])]

/-- The same channel with the rejecting gossiper. -/
def chEx2 : GossipChannel where
  ourName := 2
  name := "ex"
  hash := 77
  gossiper := gossiperEx2
  senders := []

/-- A router of peer 2 holding `chEx` under hash 77. -/
def routerEx : Router where
  ourName := 2
  channels := [(77, chEx)]

/-!
## Association-list lemmas
-/

theorem alookup_ainsert_self {α : Type} (m : List (Nat × α)) (k : Nat)
    (v : α) : alookup (ainsert m k v) k = some v := by
  simp [ainsert, alookup]

theorem alookup_aerase {α : Type} (m : List (Nat × α)) (k k' : Nat) :
    alookup (aerase m k) k' =
      if k = k' then none else alookup m k' := by
  induction m with
  | nil => simp [aerase, alookup]
  | cons p rest ih =>
    obtain ⟨a, b⟩ := p
    by_cases hak : a = k
    · subst hak
      by_cases hkk : a = k'
      · subst hkk
        simpa [aerase, alookup] using ih
      · simpa [aerase, alookup, hkk] using ih
    · by_cases hak' : a = k'
      · subst hak'
        simp [aerase, alookup, hak, Ne.symm hak]
      · simp [aerase, alookup, hak, hak']
        exact ih

theorem alookup_ainsert_ne {α : Type} (m : List (Nat × α)) (k k' : Nat)
    (v : α) (h : k ≠ k') :
    alookup (ainsert m k v) k' = alookup m k' := by
  simp [ainsert, alookup, h, alookup_aerase]

theorem alookup_nil {α : Type} (k : Nat) :
    alookup ([] : List (Nat × α)) k = none := rfl

/-!
## C1: the coalescing single-slot mailbox
-/

theorem send_foldl_singleton (ds : List GossipData) (p : GossipData) :
    List.foldl GossipSender.Send [p] ds =
      [List.foldl GossipData.Merge p ds] := by
  induction ds generalizing p with
  | nil => rfl
  | cons d rest ih =>
    simpa [GossipSender.Send, List.foldl] using ih (p.Merge d)

/-- C1. `GossipSender.Send` is a total function (the Go `select` has a
`default` branch, so it never blocks) that maintains the single-slot
mailbox: on an empty cell it deposits `data`; on a cell holding `pending`
it withdraws `pending` and puts back `pending.Merge(data)`; a cell holding
at most one value still holds exactly one value after a `Send`; and after
any serialised sequence of `Send`s into a drained (empty) cell, the cell
holds exactly the left-to-right merge of everything sent. -/
theorem gossipSender_send_coalesces :
    (∀ data, GossipSender.Send [] data = [data]) ∧
    (∀ pending data,
      GossipSender.Send [pending] data = [pending.Merge data]) ∧
    (∀ cell data, cell.length ≤ 1 →
      (GossipSender.Send cell data).length = 1) ∧
    (∀ d ds, List.foldl GossipSender.Send [] (d :: ds) =
      [List.foldl GossipData.Merge d ds]) := by
  refine ⟨fun data => rfl, fun pending data => rfl, ?_, ?_⟩
  · intro cell data hlen
    match cell with
    | [] => rfl
    | [pending] => rfl
    | p :: q :: rest => simp at hlen
  · intro d ds
    simpa [List.foldl, GossipSender.Send] using send_foldl_singleton ds d

/-- Witness for C1 at a concrete burst: three sends into a drained cell
leave one pending value, the merge of all three. -/
theorem gossipSender_send_coalesces_witness :
    (GossipSender.Send [GossipData.atom 1] (.atom 2)).length = 1 ∧
    List.foldl GossipSender.Send []
        [GossipData.atom 1, .atom 2, .atom 3] =
      [((GossipData.atom 1).Merge (.atom 2)).Merge (.atom 3)] :=
  ⟨gossipSender_send_coalesces.2.2.1 [GossipData.atom 1] (.atom 2)
      (by decide),
    gossipSender_send_coalesces.2.2.2 (GossipData.atom 1)
      [.atom 2, .atom 3]⟩

/-!
## C2: `SendGossip` rebuilds the sender map from the connection snapshot
-/

theorem sendGossipDown_lookup_self (c : GossipChannel) (conn : Connection)
    (data : GossipData) :
    alookup (c.sendGossipDown conn data).senders conn =
      some (GossipSender.Send ((alookup c.senders conn).getD []) data) := by
  unfold GossipChannel.sendGossipDown
  cases h : alookup c.senders conn <;> simp [h, alookup_ainsert_self]

theorem sendGossipDown_lookup_ne (c : GossipChannel) (conn : Connection)
    (data : GossipData) (k : Connection) (h : k ≠ conn) :
    alookup (c.sendGossipDown conn data).senders k = alookup c.senders k := by
  unfold GossipChannel.sendGossipDown
  cases h2 : alookup c.senders conn <;>
    simp [h2, alookup_ainsert_ne _ conn k _ (Ne.symm h)]

theorem sendGossipLoop_senders (conns : List Connection) (c : GossipChannel)
    (retained : List (Connection × List GossipData)) (data : GossipData)
    (k : Connection) :
    alookup (sendGossipLoop c retained data conns).1.senders k =
      if k ∈ conns then none else alookup c.senders k := by
  induction conns generalizing c retained with
  | nil => simp [sendGossipLoop]
  | cons conn rest ih =>
    by_cases hkr : k ∈ rest
    · simp only [sendGossipLoop]
      rw [ih]
      simp [hkr]
    · by_cases hkc : k = conn
      · subst hkc
        simp only [sendGossipLoop]
        rw [ih]
        simp [hkr, alookup_aerase]
      · simp only [sendGossipLoop]
        rw [ih]
        simp [hkr, hkc, alookup_aerase, Ne.symm hkc,
          sendGossipDown_lookup_ne _ _ _ _ hkc]

theorem sendGossipLoop_retained (conns : List Connection) (c : GossipChannel)
    (retained : List (Connection × List GossipData)) (data : GossipData)
    (k : Connection) :
    (alookup (sendGossipLoop c retained data conns).2 k).isSome =
      (decide (k ∈ conns) || (alookup retained k).isSome) := by
  induction conns generalizing c retained with
  | nil => simp [sendGossipLoop]
  | cons conn rest ih =>
    simp only [sendGossipLoop]
    rw [ih]
    by_cases hkc : k = conn
    · subst hkc
      simp [alookup_ainsert_self]
    · simp [alookup_ainsert_ne _ conn k _ (Ne.symm hkc), hkc]

theorem mem_map_senderStop {m : List (Connection × List GossipData)}
    {k : Connection} (h : (alookup m k).isSome = true) :
    Effect.senderStop k ∈ m.map (fun p => Effect.senderStop p.1) := by
  induction m with
  | nil => simp [alookup] at h
  | cons p rest ih =>
    obtain ⟨a, b⟩ := p
    by_cases hak : a = k
    · subst hak
      simp
    · simp only [alookup, if_neg hak] at h
      simp [ih h]

/-- C2. After `SendGossip(data)` returns, the key set of the channel's
`senders` map is exactly the set of connections in the `Connections()`
snapshot taken at the start of the call, and `Stop()` has been invoked on
every sender whose connection was absent from that snapshot. -/
theorem sendGossip_tracks_connections (ov : Overlay) (c : GossipChannel)
    (data : GossipData) :
    (∀ conn, (alookup (c.SendGossip ov data).1.senders conn).isSome ↔
      conn ∈ ov.connections) ∧
    (∀ conn, (alookup c.senders conn).isSome → conn ∉ ov.connections →
      Effect.senderStop conn ∈ (c.SendGossip ov data).2) := by
  constructor
  · intro conn
    show (alookup (sendGossipLoop c [] data ov.connections).2 conn).isSome ↔ _
    rw [sendGossipLoop_retained]
    simp [alookup_nil]
  · intro conn hsome hnot
    have h1 := sendGossipLoop_senders ov.connections c [] data conn
    rw [if_neg hnot] at h1
    show Effect.senderStop conn ∈
      (sendGossipLoop c [] data ov.connections).1.senders.map
        (fun p => Effect.senderStop p.1)
    exact mem_map_senderStop (h1 ▸ hsome)

/-- Witness for C2: connection 3 is live so it gains a sender, connection 2
has vanished so its sender is stopped. -/
theorem sendGossip_tracks_connections_witness :
    ((alookup ((chEx.SendGossip ovEx (.atom 6)).1.senders) 3).isSome ↔
      3 ∈ ovEx.connections) ∧
    Effect.senderStop 2 ∈ (chEx.SendGossip ovEx (.atom 6)).2 :=
  ⟨(sendGossip_tracks_connections ovEx chEx (.atom 6)).1 3,
    (sendGossip_tracks_connections ovEx chEx (.atom 6)).2 2 (by decide)
      (by decide)⟩

/-!
## C3: anti-entropy delivery re-gossips only the delta
-/

/-- C3. `deliverGossip` decodes the inner payload and hands it to
`gossiper.OnGossip`.  On error it returns that error with nothing sent and
the channel unchanged; on a `nil` delta it returns `nil` with nothing
sent; on a non-nil delta it performs exactly `SendGossip(delta)` — the
state change and the emitted effects are those of `SendGossip` applied to
the delta, never to the full state or the original payload. -/
theorem deliverGossip_regossips_only_delta (ov : Overlay) (c : GossipChannel)
    (srcName : PeerName) (orig dec : List GobValue) :
    (∀ e, decodeBytes dec = .error e →
      c.deliverGossip ov srcName orig dec = (some e, c, [])) ∧
    (∀ payload rest e, decodeBytes dec = .ok (payload, rest) →
      c.gossiper.onGossip payload = .error e →
      c.deliverGossip ov srcName orig dec =
        (some e, c, [.callOnGossip payload])) ∧
    (∀ payload rest, decodeBytes dec = .ok (payload, rest) →
      c.gossiper.onGossip payload = .ok none →
      c.deliverGossip ov srcName orig dec =
        (none, c, [.callOnGossip payload])) ∧
    (∀ payload rest delta, decodeBytes dec = .ok (payload, rest) →
      c.gossiper.onGossip payload = .ok (some delta) →
      c.deliverGossip ov srcName orig dec =
        (none, (c.SendGossip ov delta).1,
          .callOnGossip payload :: (c.SendGossip ov delta).2)) := by
  refine ⟨?_, ?_, ?_, ?_⟩ <;> intros <;>
    simp_all [GossipChannel.deliverGossip]

/-- Witness for C3: a gossiper that learns delta `atom 9` causes exactly a
`SendGossip` of that delta. -/
theorem deliverGossip_regossips_only_delta_witness :
    chEx2.deliverGossip ovEx 6 [] [.vBytes [1]] =
      (none, (chEx2.SendGossip ovEx (.atom 9)).1,
        .callOnGossip [1] :: (chEx2.SendGossip ovEx (.atom 9)).2) :=
  (deliverGossip_regossips_only_delta ovEx chEx2 6 [] [.vBytes [1]]).2.2.2
    [1] [] (.atom 9) rfl rfl

/-!
## C4: a gossiper error suppresses broadcast relaying
-/

/-- C4. If `gossiper.OnGossipBroadcast` rejects the payload,
`deliverGossipBroadcast` returns that error and transmits nothing; if it
accepts, the original frame is relayed via `relayGossipBroadcast` with the
original source name and the original bytes. -/
theorem deliverGossipBroadcast_gates_relay (ov : Overlay) (c : GossipChannel)
    (srcName : PeerName) (orig dec : List GobValue) :
    (∀ payload rest e, decodeBytes dec = .ok (payload, rest) →
      c.gossiper.onGossipBroadcast payload = some e →
      c.deliverGossipBroadcast ov srcName orig dec =
        (some e, [.callOnGossipBroadcast payload]) ∧
      (∀ conn tg m, Effect.sendProtocolMsg conn tg m ∉
        (c.deliverGossipBroadcast ov srcName orig dec).2)) ∧
    (∀ payload rest, decodeBytes dec = .ok (payload, rest) →
      c.gossiper.onGossipBroadcast payload = none →
      c.deliverGossipBroadcast ov srcName orig dec =
        ((c.relayGossipBroadcast ov srcName orig).1,
          .callOnGossipBroadcast payload ::
            (c.relayGossipBroadcast ov srcName orig).2)) := by
  constructor
  · intro payload rest e h1 h2
    constructor
    · simp [GossipChannel.deliverGossipBroadcast, h1, h2]
    · intro conn tg m
      simp [GossipChannel.deliverGossipBroadcast, h1, h2]
  · intro payload rest h1 h2
    simp [GossipChannel.deliverGossipBroadcast, h1, h2]

/-- Witness for C4: the rejecting gossiper's error is returned and no
protocol message is emitted. -/
theorem deliverGossipBroadcast_gates_relay_witness :
    chEx2.deliverGossipBroadcast ovEx 6 [] [.vBytes [1]] =
      (some (.appError 2), [.callOnGossipBroadcast [1]]) :=
  ((deliverGossipBroadcast_gates_relay ovEx chEx2 6 [] [.vBytes [1]]).1
    [1] [] (.appError 2) rfl rfl).1

/-!
## C5: unicast frames for other peers are forwarded verbatim
-/

theorem relayGossipUnicast_no_gossiper_call (ov : Overlay)
    (c : GossipChannel) (dst : PeerName) (msg : List GobValue)
    (s : PeerName) (p : List Nat) :
    Effect.callOnGossipUnicast s p ∉ (c.relayGossipUnicast ov dst msg).2 := by
  unfold GossipChannel.relayGossipUnicast
  rcases h1 : ov.unicast dst with _ | rp
  · simp [h1]
  · rcases h2 : ov.connectionTo rp with _ | conn
    · simp [h1, h2]
    · simp [h1, h2]

/-- C5. When the decoded destination is not us, `deliverGossipUnicast`
forwards the original frame bytes unchanged through `relayGossipUnicast`
and never calls `gossiper.OnGossipUnicast`; only when we are the
destination is the inner payload decoded and handed to
`gossiper.OnGossipUnicast(srcName, payload)`, whose error is returned. -/
theorem deliverGossipUnicast_relays_or_delivers (ov : Overlay)
    (c : GossipChannel) (srcName : PeerName) (orig dec : List GobValue) :
    (∀ destName rest, decodeName dec = .ok (destName, rest) →
      c.ourName ≠ destName →
      c.deliverGossipUnicast ov srcName orig dec =
        c.relayGossipUnicast ov destName orig ∧
      (∀ s p, Effect.callOnGossipUnicast s p ∉
        (c.deliverGossipUnicast ov srcName orig dec).2)) ∧
    (∀ destName rest payload rest2, decodeName dec = .ok (destName, rest) →
      c.ourName = destName → decodeBytes rest = .ok (payload, rest2) →
      c.deliverGossipUnicast ov srcName orig dec =
        (c.gossiper.onGossipUnicast srcName payload,
          [.callOnGossipUnicast srcName payload])) := by
  constructor
  · intro destName rest h1 h2
    have heq : c.deliverGossipUnicast ov srcName orig dec =
        c.relayGossipUnicast ov destName orig := by
      simp [GossipChannel.deliverGossipUnicast, h1, h2]
    refine ⟨heq, fun s p => ?_⟩
    rw [heq]
    exact relayGossipUnicast_no_gossiper_call ov c destName orig s p
  · intro destName rest payload rest2 h1 h2 h3
    simp [GossipChannel.deliverGossipUnicast, h1, h2, h3]

/-- Witness for C5: a frame for peer 7 arriving at peer 2 is relayed with
the original bytes. -/
theorem deliverGossipUnicast_relays_or_delivers_witness :
    chEx.deliverGossipUnicast ovEx 6 (GobEncode4 77 6 7 [9])
        [.vName 7, .vBytes [9]] =
      chEx.relayGossipUnicast ovEx 7 (GobEncode4 77 6 7 [9]) :=
  ((deliverGossipUnicast_relays_or_delivers ovEx chEx 6
      (GobEncode4 77 6 7 [9]) [.vName 7, .vBytes [9]]).1 7 [.vBytes [9]]
    rfl (by decide)).1

/-!
## C6: the dispatcher
-/

/-- C6. `handleGossip` returns decode failures of `channelHash` or
`srcName` as errors, returns the unknown-channel error when the hash is
not registered, dispatches the three gossip tags to the matching deliver
routine, and returns `nil` (a no-op) for any other tag. -/
theorem handleGossip_dispatch (ov : Overlay) (router : Router)
    (tag : ProtocolTag) (payload : List GobValue) :
    (∀ e, decodeUInt32 payload = .error e →
      router.handleGossip ov tag payload = (some e, router, [])) ∧
    (∀ h rest, decodeUInt32 payload = .ok (h, rest) →
      alookup router.channels h = none →
      router.handleGossip ov tag payload =
        (some (.unknownChannel h), router, [])) ∧
    (∀ h rest channel e, decodeUInt32 payload = .ok (h, rest) →
      alookup router.channels h = some channel →
      decodeName rest = .error e →
      router.handleGossip ov tag payload = (some e, router, [])) ∧
    (∀ h rest channel srcName dec, decodeUInt32 payload = .ok (h, rest) →
      alookup router.channels h = some channel →
      decodeName rest = .ok (srcName, dec) →
      (tag = .protocolGossipUnicast →
        router.handleGossip ov tag payload =
          ((channel.deliverGossipUnicast ov srcName payload dec).1, router,
            (channel.deliverGossipUnicast ov srcName payload dec).2)) ∧
      (tag = .protocolGossipBroadcast →
        router.handleGossip ov tag payload =
          ((channel.deliverGossipBroadcast ov srcName payload dec).1,
            router,
            (channel.deliverGossipBroadcast ov srcName payload dec).2)) ∧
      (tag = .protocolGossip →
        router.handleGossip ov tag payload =
          ((channel.deliverGossip ov srcName payload dec).1,
            { router with channels := ainsert router.channels h (channel.deliverGossip ov srcName payload dec).2.1 },
            (channel.deliverGossip ov srcName payload dec).2.2)) ∧
      (∀ n, tag = .other n →
        router.handleGossip ov tag payload = (none, router, []))) := by
  refine ⟨?_, ?_, ?_, ?_⟩
  · intro e h1
    simp [Router.handleGossip, h1]
  · intro h rest h1 h2
    simp [Router.handleGossip, h1, h2]
  · intro h rest channel e h1 h2 h3
    simp [Router.handleGossip, h1, h2, h3]
  · intro h rest channel srcName dec h1 h2 h3
    refine ⟨?_, ?_, ?_, ?_⟩ <;> intros <;> subst tag <;>
      simp [Router.handleGossip, h1, h2, h3]

/-- Witness for C6: an unregistered hash yields the unknown-channel error,
and a non-gossip tag on a well-formed frame is a successful no-op. -/
theorem handleGossip_dispatch_witness :
    routerEx.handleGossip ovEx .protocolGossip [.vUInt32 99] =
      (some (.unknownChannel 99), routerEx, []) ∧
    routerEx.handleGossip ovEx (.other 5) [.vUInt32 77, .vName 6] =
      (none, routerEx, []) :=
  ⟨(handleGossip_dispatch ovEx routerEx .protocolGossip [.vUInt32 99]).2.1
      99 [] rfl rfl,
    ((handleGossip_dispatch ovEx routerEx (.other 5)
        [.vUInt32 77, .vName 6]).2.2.2 77 [.vName 6] chEx 6 [] rfl rfl
      rfl).2.2.2 5 rfl⟩

/-!
## C7: unicast relaying drops silently
-/

/-- C7. `relayGossipUnicast` returns `nil` on every path: with no route it
logs and drops, with a route but no connection to the relay peer it logs
and drops, and otherwise it transmits the frame on that connection with
tag `GossipUnicast`. -/
theorem relayGossipUnicast_silent_drop (ov : Overlay) (c : GossipChannel)
    (dst : PeerName) (msg : List GobValue) :
    (c.relayGossipUnicast ov dst msg).1 = none ∧
    (ov.unicast dst = none →
      (c.relayGossipUnicast ov dst msg).2 = [.logDrop]) ∧
    (∀ rp, ov.unicast dst = some rp → ov.connectionTo rp = none →
      (c.relayGossipUnicast ov dst msg).2 = [.logDrop]) ∧
    (∀ rp conn, ov.unicast dst = some rp → ov.connectionTo rp = some conn →
      (c.relayGossipUnicast ov dst msg).2 =
        [.sendProtocolMsg conn .protocolGossipUnicast msg]) := by
  refine ⟨?_, ?_, ?_, ?_⟩
  · unfold GossipChannel.relayGossipUnicast
    rcases h1 : ov.unicast dst with _ | rp
    · simp [h1]
    · rcases h2 : ov.connectionTo rp with _ | conn <;> simp [h1, h2]
  · intro h1
    simp [GossipChannel.relayGossipUnicast, h1]
  · intro rp h1 h2
    simp [GossipChannel.relayGossipUnicast, h1, h2]
  · intro rp conn h1 h2
    simp [GossipChannel.relayGossipUnicast, h1, h2]

/-- Witness for C7: no route to peer 9, a route to peer 8 via peer 5 with
no connection, and a full transmission path to peer 7 via peer 4 on
connection 3. -/
theorem relayGossipUnicast_silent_drop_witness :
    (chEx.relayGossipUnicast ovEx 9 [.vBytes [1]]).2 = [.logDrop] ∧
    (chEx.relayGossipUnicast ovEx 8 [.vBytes [1]]).2 = [.logDrop] ∧
    (chEx.relayGossipUnicast ovEx 7 [.vBytes [1]]).2 =
      [.sendProtocolMsg 3 .protocolGossipUnicast [.vBytes [1]]] :=
  ⟨(relayGossipUnicast_silent_drop ovEx chEx 9 [.vBytes [1]]).2.1 rfl,
    (relayGossipUnicast_silent_drop ovEx chEx 8 [.vBytes [1]]).2.2.1 5
      rfl rfl,
    (relayGossipUnicast_silent_drop ovEx chEx 7 [.vBytes [1]]).2.2.2 4 3
      rfl rfl⟩

/-!
## C8: every outbound frame carries `(channelHash, ourName, ...)`
-/

/-- C8. Every frame transmitted by `GossipUnicast` is the encoding
`(hash, ourName, dst, buf)` with tag `GossipUnicast`; every frame
transmitted by `GossipBroadcast` is `(hash, ourName, buf)` with tag
`GossipBroadcast`; the send function built in `sendGossipDown` emits
`(hash, ourName, data.Encode())` with tag `Gossip`; and in each encoding
the field after the channel hash is the originating peer's name. -/
theorem outbound_frames_source_field (ov : Overlay) (c : GossipChannel)
    (dst : PeerName) (buf : List Nat) (data : GossipData)
    (conn0 : Connection) :
    (∀ conn tg msg, Effect.sendProtocolMsg conn tg msg ∈
        (c.GossipUnicast ov dst buf).2 →
      tg = .protocolGossipUnicast ∧
      msg = GobEncode4 c.hash c.ourName dst buf) ∧
    (∀ conn tg msg, Effect.sendProtocolMsg conn tg msg ∈
        (c.GossipBroadcast ov buf).2 →
      tg = .protocolGossipBroadcast ∧
      msg = GobEncode3 c.hash c.ourName buf) ∧
    (c.senderSendFn conn0 data =
      .sendProtocolMsg conn0 .protocolGossip
        (GobEncode3 c.hash c.ourName data.Encode)) ∧
    ((GobEncode4 c.hash c.ourName dst buf)[1]? =
      some (.vName c.ourName)) ∧
    ((GobEncode3 c.hash c.ourName buf)[1]? = some (.vName c.ourName)) := by
  refine ⟨?_, ?_, rfl, rfl, rfl⟩
  · intro conn tg msg hmem
    simp only [GossipChannel.GossipUnicast,
      GossipChannel.relayGossipUnicast] at hmem
    rcases h1 : ov.unicast dst with _ | rp <;> simp only [h1] at hmem
    · simp at hmem
    · rcases h2 : ov.connectionTo rp with _ | conn' <;>
        simp only [h2] at hmem
      · simp at hmem
      · simp at hmem
        exact ⟨hmem.2.1, hmem.2.2⟩
  · intro conn tg msg hmem
    simp only [GossipChannel.GossipBroadcast,
      GossipChannel.relayGossipBroadcast] at hmem
    rcases h1 : ov.fetch c.ourName with _ | sp <;> simp only [h1] at hmem
    · simp at hmem
    · simp [List.mem_map] at hmem
      obtain ⟨a, _, ha⟩ := hmem
      exact ⟨ha.2.1.symm, ha.2.2.symm⟩

/-- Witness for C8 on the transmission path: the frame sent to relay a
unicast for peer 7 is the four-field encoding with our name second. -/
theorem outbound_frames_source_field_witness :
    ProtocolTag.protocolGossipUnicast = .protocolGossipUnicast ∧
    GobEncode4 77 2 7 [9] = GobEncode4 chEx.hash chEx.ourName 7 [9] :=
  (outbound_frames_source_field ovEx chEx 7 [9] (.atom 0) 3).1 3
    .protocolGossipUnicast (GobEncode4 77 2 7 [9]) (by decide)

/-!
## C9: the channel registry
-/

theorem registerAll_preserves (regs : List (String × Gossiper))
    (router : Router) (h : Nat)
    (hna : h ∉ regs.map (fun r => hash r.1)) :
    alookup (registerAll router regs).channels h =
      alookup router.channels h := by
  induction regs generalizing router with
  | nil => rfl
  | cons reg rest ih =>
    simp only [List.map_cons, List.mem_cons] at hna
    push_neg at hna
    simp only [registerAll]
    rw [ih _ hna.2]
    exact alookup_ainsert_ne _ _ _ _ (Ne.symm hna.1)

/-- C9. After any sequence of `NewGossip` registrations whose channel-name
hashes are pairwise distinct (hash collisions are a programming error),
each registered channel is found in `GossipChannels` under the hash of its
name, carrying its name, hash, gossiper, and the router's peer name. -/
theorem newGossip_registry (router : Router)
    (regs : List (String × Gossiper))
    (hnd : (regs.map (fun r => hash r.1)).Nodup) (nm : String)
    (g : Gossiper) (hmem : (nm, g) ∈ regs) :
    ∃ ch, alookup (registerAll router regs).channels (hash nm) =
        some ch ∧ ch.name = nm ∧ ch.hash = hash nm ∧ ch.gossiper = g ∧
        ch.ourName = router.ourName := by
  induction regs generalizing router with
  | nil => simp at hmem
  | cons reg rest ih =>
    obtain ⟨nm', g'⟩ := reg
    simp only [List.map_cons, List.nodup_cons] at hnd
    rcases List.mem_cons.mp hmem with heq | hrest
    · obtain ⟨h1, h2⟩ := Prod.mk.inj heq
      subst h1
      subst h2
      refine ⟨⟨router.ourName, nm, hash nm, g, []⟩, ?_, rfl, rfl, rfl, rfl⟩
      simp only [registerAll]
      rw [registerAll_preserves rest _ (hash nm) hnd.1]
      simp [Router.NewGossip, alookup_ainsert_self]
    · exact ih ((router.NewGossip nm' g').1) hnd.2 hrest

/-- Witness for C9: registering channels "a" then "b" on a fresh router
leaves channel "a" retrievable under `hash "a"`. -/
theorem newGossip_registry_witness :
    ∃ ch, alookup (registerAll { ourName := 0, channels := [] }
          [("a", gossiperEx), ("b", gossiperEx2)]).channels (hash "a") =
        some ch ∧ ch.name = "a" ∧ ch.hash = hash "a" ∧
        ch.gossiper = gossiperEx ∧
        ch.ourName = Router.ourName { ourName := 0, channels := [] } :=
  newGossip_registry { ourName := 0, channels := [] }
    [("a", gossiperEx), ("b", gossiperEx2)] (by decide) "a" gossiperEx
    (by simp)

/-!
## C10: the public send operations never surface an error
-/

/-- C10. `GossipUnicast`, `GossipBroadcast` and the two relay routines
return `nil` on every path — missing route, missing connection, unknown
source peer, or successful transmission. -/
theorem gossip_ops_never_error (ov : Overlay) (c : GossipChannel)
    (dst srcName : PeerName) (buf : List Nat) (msg : List GobValue) :
    (c.GossipUnicast ov dst buf).1 = none ∧
    (c.GossipBroadcast ov buf).1 = none ∧
    (c.relayGossipUnicast ov dst msg).1 = none ∧
    (c.relayGossipBroadcast ov srcName msg).1 = none := by
  have hu : ∀ d m, (c.relayGossipUnicast ov d m).1 = none := by
    intro d m
    unfold GossipChannel.relayGossipUnicast
    rcases h1 : ov.unicast d with _ | rp
    · simp [h1]
    · rcases h2 : ov.connectionTo rp with _ | conn <;> simp [h1, h2]
  have hb : ∀ s m, (c.relayGossipBroadcast ov s m).1 = none := by
    intro s m
    unfold GossipChannel.relayGossipBroadcast
    rcases h1 : ov.fetch s with _ | sp <;> simp [h1]
  exact ⟨hu dst (GobEncode4 c.hash c.ourName dst buf),
    hb c.ourName (GobEncode3 c.hash c.ourName buf), hu dst msg,
    hb srcName msg⟩

end Weave
